import Mathlib

/-!
Verification of the file-conversion pipeline of the liff-file-uploader server
(`src/server.js`, first server variant lines 1–1155, plus the third variant's
`processFileConversion` for the `isConverted` flag).

Shallow embedding conventions:
* File contents are byte lists (`Bytes`); the filesystem is a partial map from
  path strings to contents (`FS`).  `fs.existsSync p` is `fsExists`,
  `fs.statSync(p).size` is `fsSize` (a missing file makes `statSync` throw,
  modelled as `none`).
* External collaborators (the `pdf2pic` renderer, the LibreOffice converter,
  the shell `convert` command) are oracles packaged in environment structures:
  each records the outcome the collaborator produces during one call.
* JavaScript exceptions are modelled with `Except Err`.
* String operations (`path.basename`, `path.extname`, `startsWith`,
  `endsWith`, `Array.sort`) are modelled on the underlying character lists so
  that concrete runs reduce.
-/

namespace LiffUploader

/-- File content: a list of bytes. -/
abbrev Bytes := List Nat

/-- Filesystem snapshot: maps a path to the content stored there, `none` when
no file exists at that path. -/
abbrev FS := String → Option Bytes

/-- Model of `fs.existsSync p`. -/
def fsExists (fs : FS) (p : String) : Bool :=
  (fs p).isSome

/-- Model of `fs.statSync(p).size`; `none` models `statSync` throwing on a missing file. -/
def fsSize (fs : FS) (p : String) : Option Nat :=
  (fs p).map List.length

/-- Model of `fs.writeFileSync p c` and of a `fs.copyFileSync` target update. -/
def fsWrite (fs : FS) (p : String) (c : Bytes) : FS :=
  fun q => if q = p then some c else fs q

/-- Model of `fs.unlinkSync p`. -/
def fsRemove (fs : FS) (p : String) : FS :=
  fun q => if q = p then none else fs q

/-- The distinct `Error` values thrown by the embedded code.  Numeric codes
distinguish otherwise-opaque errors coming from the external collaborators. -/
inductive Err where
  /-- Error `'PDF2Pic 轉換模組未載入…'` thrown inside `convertPDFToImages`. -/
  | pdf2picNotLoaded : Err
  /-- Error `'LibreOffice 轉換模組未載入…'` thrown inside `convertToPDF`. -/
  | libreNotLoaded : Err
  /-- Error `'系統不支援 DOC/DOCX 轉換功能…'` thrown inside `processFileConversion`. -/
  | docConversionUnsupported : Err
  /-- Error from `fs.readFileSync`, `fs.copyFileSync` or `fs.statSync` on a missing file. -/
  | readFailed : Err
  /-- An error rejected by `libreOfficeConvert.convertAsync`. -/
  | officeErr (code : Nat) : Err
  /-- An error thrown by `pdf2pic`'s `convert.bulk` for some configuration. -/
  | renderErr (code : Nat) : Err
  /-- Error `'所有轉換配置都失敗了'`. -/
  | allConfigsFailed : Err
  /-- Error `'轉換完成但沒有生成有效的圖片檔案'`. -/
  | noValidImages : Err
  /-- Error `'PDF 轉換圖片失敗：沒有產生圖片檔案'` of the third variant's `convertPDFToImages`. -/
  | noImagesProduced : Err
  /-- An error passed to the `exec` callback of the shell command. -/
  | shellExecErr (code : Nat) : Err
  /-- Error `'系統命令沒有生成任何有效的圖片檔案'`. -/
  | shellNoValidImages : Err
  deriving DecidableEq, Repr

/-- Model of `path.basename p`: the part of `p` after the last `/`. -/
def basename (p : String) : String :=
  String.mk (((p.data.reverse).takeWhile (fun c => c ≠ '/')).reverse)

/-- Model of `path.basename p '.pdf'`: the basename with a trailing `.pdf` removed. -/
def stripPdfExt (s : String) : String :=
  if (".pdf".data).isSuffixOf s.data then String.mk (s.data.take (s.data.length - 4)) else s

/-- Model of `path.extname p`: the suffix of the basename from its last `.` (inclusive);
empty when the basename has no `.` or only a leading one. -/
def extname (p : String) : String :=
  let base := (basename p).data
  let revAfter := (base.reverse).takeWhile (fun c => c ≠ '.')
  if revAfter.length = base.length then ""
  else if base.length = revAfter.length + 1 then ""
  else String.mk ('.' :: revAfter.reverse)

/-- Model of `s.toLowerCase()`. -/
def toLowerStr (s : String) : String :=
  String.mk (s.data.map Char.toLower)

/-- Model of `f.startsWith b`. -/
def nameStarts (f b : String) : Bool :=
  (b.data).isPrefixOf f.data

/-- Model of `f.endsWith suf`. -/
def nameEnds (f suf : String) : Bool :=
  (suf.data).isSuffixOf f.data

/-- Model of `f.endsWith('.png') || f.endsWith('.jpg')`. -/
def isImageName (f : String) : Bool :=
  nameEnds f ".png" || nameEnds f ".jpg"

/-- Model of `path.join dir f`. -/
def pathJoin (dir f : String) : String :=
  dir ++ "/" ++ f

/-- Insert a string into a lexicographically sorted list (stable). -/
def insertSorted (x : String) : List String → List String
  | [] => [x]
  | y :: ys => if y.data < x.data then y :: insertSorted x ys else x :: y :: ys

/-- Model of `Array.prototype.sort()` on strings: lexicographic sort. -/
def sortStrings : List String → List String
  | [] => []
  | x :: xs => insertSorted x (sortStrings xs)

/-- External behaviour observed during one Rasterizer call.
`bulk i` is the outcome of `pdf2pic … .bulk(-1, …)` under configuration `i`
(the thrown error, or the list of `result.path`s returned); `shellExec` is the
outcome of the `exec(convertCmd, …)` callback; `dirFiles` is what
`fs.readdirSync(outputDir)` returns after the shell command; `fs` is the
filesystem snapshot consulted by the existence/size validation checks. -/
structure RasterEnv where
  pdf2picLoaded : Bool
  bulk : Nat → Except Err (List String)
  shellExec : Except Err Unit
  dirFiles : List String
  fs : FS

/-- The mutable state of the `for` loop over `configs` in `convertPDFToImages`:
the `results` and `lastError` variables, plus (for the proofs) the list of
configuration indices that were attempted, in order. -/
structure ConfigLoopState where
  results : Option (List String)
  lastError : Option Err
  attempted : List Nat

/-- One run of the loop body from index `i`, with `fuel` iterations remaining.
`results = await convert.bulk(…)` overwrites `results` when it returns; the
loop breaks as soon as a non-empty list is returned; a thrown error is stored
in `lastError` and the loop continues. -/
def runConfigsFrom (env : RasterEnv) : Nat → Nat → ConfigLoopState → ConfigLoopState
  | 0, _, st => st
  | fuel + 1, i, st =>
    match env.bulk i with
    | .ok rs =>
      if 0 < rs.length then
        { st with results := some rs, attempted := st.attempted ++ [i] }
      else
        runConfigsFrom env fuel (i + 1)
          { st with results := some rs, attempted := st.attempted ++ [i] }
    | .error e =>
      runConfigsFrom env fuel (i + 1)
        { st with lastError := some e, attempted := st.attempted ++ [i] }

/-- The whole `for (let i = 0; i < configs.length; i++)` loop (`n = 2` configs
in the source). -/
def runConfigs (env : RasterEnv) (n : Nat) : ConfigLoopState :=
  runConfigsFrom env n 0 ⟨none, none, []⟩

/-- Model of the prefix scan `files.filter(f => f.startsWith(baseName) && (f.endsWith('.png') || f.endsWith('.jpg'))).map(f => path.join(outputDir, f)).sort()`. -/
def prefixImageFiles (files : List String) (baseName outputDir : String) : List String :=
  sortStrings ((files.filter (fun f => nameStarts f baseName && isImageName f)).map (pathJoin outputDir))

/-- Model of the any-image scan `files.filter(f => f.endsWith('.png') || f.endsWith('.jpg')).map(f => path.join(outputDir, f)).sort()`. -/
def anyImageFiles (files : List String) (outputDir : String) : List String :=
  sortStrings ((files.filter isImageName).map (pathJoin outputDir))

/-- The directory-scan selection of `convertPDFUsingSystemCommand`: the
prefix-based match, falling back to any image file when it finds nothing. -/
def selectShellImages (files : List String) (baseName outputDir : String) : List String :=
  let imageFiles := prefixImageFiles files baseName outputDir
  if imageFiles.length = 0 then anyImageFiles files outputDir else imageFiles

/-- The `stats.size > 100` validation loop: keep the paths whose file exists
(`statSync` succeeding) with size strictly above 100 bytes. -/
def filterValidBySize (fs : FS) (paths : List String) : List String :=
  paths.filter (fun p =>
    match fs p with
    | some c => decide (100 < c.length)
    | none => false)

/-- Model of `convertPDFUsingSystemCommand(pdfPath, outputDir)`. -/
def convertPDFUsingSystemCommand (env : RasterEnv) (pdfPath outputDir : String) :
    Except Err (List String) :=
  let baseName := stripPdfExt (basename pdfPath)
  match env.shellExec with
  | .error e => .error e
  | .ok _ =>
    let validImageFiles := filterValidBySize env.fs (selectShellImages env.dirFiles baseName outputDir)
    if validImageFiles.length = 0 then .error .shellNoValidImages
    else .ok validImageFiles

/-- The body of the `try` block of `convertPDFToImages`: module check, the
configuration loop, the `!results || results.length === 0` re-throw, and the
existence filter over the claimed output files. -/
def convertPDFToImagesTry (env : RasterEnv) : Except Err (List String) :=
  if env.pdf2picLoaded = false then .error .pdf2picNotLoaded
  else
    let st := runConfigs env 2
    match st.results with
    | none => .error (st.lastError.getD .allConfigsFailed)
    | some rs =>
      if rs.length = 0 then .error (st.lastError.getD .allConfigsFailed)
      else
        let imageFiles := rs.filter (fun p => fsExists env.fs p)
        if imageFiles.length = 0 then .error .noValidImages
        else .ok imageFiles

/-- Observable outcome of one `convertPDFToImages` call: the returned value or
thrown error, which configuration indices were attempted, and whether the
system-command fallback was invoked. -/
structure RasterOutcome where
  result : Except Err (List String)
  attempted : List Nat
  fallbackInvoked : Bool
  deriving Repr

/-- Model of `convertPDFToImages(pdfPath, outputDir)`: the `try` body, and on any thrown
error the `convertPDFUsingSystemCommand` fallback; if the fallback also throws,
the original error is re-thrown (`throw error; // 拋出原始錯誤`). -/
def convertPDFToImages (env : RasterEnv) (pdfPath outputDir : String) : RasterOutcome :=
  let attempted := if env.pdf2picLoaded then (runConfigs env 2).attempted else []
  match convertPDFToImagesTry env with
  | .ok files => ⟨.ok files, attempted, false⟩
  | .error e =>
    match convertPDFUsingSystemCommand env pdfPath outputDir with
    | .ok files => ⟨.ok files, attempted, true⟩
    | .error _ => ⟨.error e, attempted, true⟩

/-- External behaviour of the office-document converter: whether the
`libreoffice-convert` module loaded, and what `convertAsync` does on the given
input bytes (the produced PDF bytes, or the rejected error). -/
structure OfficeEnv where
  libreLoaded : Bool
  convertAsync : Bytes → Except Err Bytes

/-- Model of `convertToPDF(inputPath, outputPath)` (first variant, lines 155–179): module
check, `readFileSync`, `convertAsync`, `writeFileSync`; any thrown error is
re-thrown.  Returns the outcome together with the filesystem afterwards. -/
def convertToPDF (env : OfficeEnv) (fs : FS) (inputPath outputPath : String) :
    Except Err Unit × FS :=
  if env.libreLoaded = false then (.error .libreNotLoaded, fs)
  else
    match fs inputPath with
    | none => (.error .readFailed, fs)
    | some inputBuffer =>
      match env.convertAsync inputBuffer with
      | .error e => (.error e, fs)
      | .ok pdfBuffer => (.ok (), fsWrite fs outputPath pdfBuffer)

/-- One entry of `result.imageFiles.files`: `{ name: path.basename(filePath), page: index + 1, … }`. -/
structure ImageEntry where
  name : String
  page : Nat
  deriving DecidableEq, Repr

/-- Model of `imageFiles.map((filePath, index) => ({ name: …, page: index + 1 }))`,
unrolled with the page counter starting at `start`. -/
def numberFiles : List String → Nat → List ImageEntry
  | [], _ => []
  | f :: rest, start => ⟨basename f, start⟩ :: numberFiles rest (start + 1)

/-- The fields of the first variant's `ConversionResult` object that the claims
are about: the PDF file info and the image list. -/
structure ConversionResult1 where
  pdfSize : Nat
  imageCount : Nat
  imageEntries : List ImageEntry
  deriving DecidableEq, Repr

/-- The two collaborator environments a pipeline run consumes. -/
structure PipelineEnv where
  office : OfficeEnv
  raster : RasterEnv

/-- Step 1 of `processFileConversion` (first variant, lines 363–376): copy a
`.pdf` source to the destination, otherwise check the module and run
`convertToPDF`. -/
def normalizeStep (env : OfficeEnv) (fs : FS) (srcPath ext pdfPath : String) :
    Except Err Unit × FS :=
  if ext = ".pdf" then
    match fs srcPath with
    | some c => (.ok (), fsWrite fs pdfPath c)
    | none => (.error .readFailed, fs)
  else
    if env.libreLoaded = false then (.error .docConversionUnsupported, fs)
    else convertToPDF env fs srcPath pdfPath

/-- Model of `processFileConversion(originalFile)` (first variant, lines 355–434).
Step 1 normalizes to PDF; step 2 calls `convertPDFToImages` only when the
`pdf2pic` module loaded and catches any error it throws, leaving `imageFiles`
empty; the result records `fs.statSync(pdfPath).size` and numbers the image
entries from 1. -/
def processFileConversion1 (env : PipelineEnv) (fs : FS) (srcPath ext pdfPath imgDir : String) :
    Except Err ConversionResult1 × FS :=
  match normalizeStep env.office fs srcPath ext pdfPath with
  | (.error e, fs1) => (.error e, fs1)
  | (.ok _, fs1) =>
    let imageFiles : List String :=
      if env.raster.pdf2picLoaded then
        match (convertPDFToImages env.raster pdfPath imgDir).result with
        | .ok files => files
        | .error _ => []
      else []
    match fsSize fs1 pdfPath with
    | none => (.error .readFailed, fs1)
    | some sz =>
      (.ok { pdfSize := sz, imageCount := imageFiles.length,
             imageEntries := numberFiles imageFiles 1 }, fs1)

/-- The third variant's `convertPDFToImages` (lines 1557–1596): a single
configuration, no existence validation and no fallback; throws when the
renderer throws or returns no file. -/
def convertPDFToImages3 (env : RasterEnv) : Except Err (List String) :=
  if env.pdf2picLoaded = false then .error .pdf2picNotLoaded
  else
    match env.bulk 0 with
    | .error e => .error e
    | .ok rs => if rs.length = 0 then .error .noImagesProduced else .ok rs

/-- The fields of the third variant's result object that the claims are about,
including the `isConverted` flag of `pdfFile`. -/
structure ConversionResult3 where
  pdfPath : String
  pdfSize : Nat
  isConverted : Bool
  imageCount : Nat
  imageEntries : List ImageEntry
  deriving DecidableEq, Repr

/-- Model of `processFileConversion(originalFile)` (third variant, lines 1601–1670):
`.pdf` sources are copied with `isPdfConverted = false`, others go through
`convertToPDF` with `isPdfConverted = true`; `convertPDFToImages` is NOT
caught here, so a Rasterizer error fails the whole job. -/
def processFileConversion3 (env : PipelineEnv) (fs : FS) (srcPath ext pdfPath _imgDir : String) :
    Except Err ConversionResult3 × FS :=
  match (if ext = ".pdf" then
           (match fs srcPath with
            | some c => ((Except.ok false : Except Err Bool), fsWrite fs pdfPath c)
            | none => (.error .readFailed, fs))
         else
           (match convertToPDF env.office fs srcPath pdfPath with
            | (.ok _, fs1) => ((Except.ok true : Except Err Bool), fs1)
            | (.error e, fs1) => (.error e, fs1))) with
  | (.error e, fs1) => (.error e, fs1)
  | (.ok isConv, fs1) =>
    match convertPDFToImages3 env.raster with
    | .error e => (.error e, fs1)
    | .ok imageFiles =>
      match fsSize fs1 pdfPath with
      | none => (.error .readFailed, fs1)
      | some sz =>
        (.ok { pdfPath := pdfPath, pdfSize := sz, isConverted := isConv,
               imageCount := imageFiles.length,
               imageEntries := numberFiles imageFiles 1 }, fs1)

/-- The uploaded file as multer hands it to the route: the client's original
name and the path of the saved file in the upload directory. -/
structure UploadedFile where
  originalname : String
  path : String
  deriving DecidableEq, Repr

/-- The HTTP status class of the route's response. -/
inductive HttpStatus where
  | ok200 : HttpStatus
  | bad400 : HttpStatus
  | err500 : HttpStatus
  deriving DecidableEq, Repr

/-- The parts of the route's JSON response the claims are about. -/
structure UploadResponse where
  status : HttpStatus
  success : Bool
  deriving DecidableEq, Repr

/-- Environment of the `/api/upload` route: the pipeline collaborators plus
whether `process.env.KEEP_ORIGINAL_FILES === 'true'`. -/
structure HandlerEnv where
  pipeline : PipelineEnv
  keepOriginalFiles : Bool

/-- The `/api/upload` handler (first variant, lines 649–757), from the point
where multer has run: reject when no file arrived; reject non-`.pdf` uploads
when the office module is missing; run `processFileConversion`; on success
delete the original upload unless `KEEP_ORIGINAL_FILES === 'true'` and respond
200; on a thrown error delete the original upload if it still exists and
respond 500.  (`sendLineStyleMessageToN8N` never throws and touches no file,
so it is omitted.) -/
def uploadHandler (env : HandlerEnv) (fs : FS) (file : Option UploadedFile)
    (pdfPath imgDir : String) : UploadResponse × FS :=
  match file with
  | none => ({ status := .bad400, success := false }, fs)
  | some f =>
    let ext := toLowerStr (extname f.originalname)
    if ext ≠ ".pdf" ∧ env.pipeline.office.libreLoaded = false then
      ({ status := .bad400, success := false }, fs)
    else
      match processFileConversion1 env.pipeline fs f.path ext pdfPath imgDir with
      | (.ok _, fs1) =>
        let fs2 := if env.keepOriginalFiles then fs1 else fsRemove fs1 f.path
        ({ status := .ok200, success := true }, fs2)
      | (.error _, fs1) =>
        let fs2 := if fsExists fs1 f.path then fsRemove fs1 f.path else fs1
        ({ status := .err500, success := false }, fs2)

/-- Environment for the C9 witness: both renderer configurations throw and the
shell command fails with a different error. -/
def rasterC9W : RasterEnv :=
  { pdf2picLoaded := true
    bulk := fun i => .error (.renderErr i)
    shellExec := .error (.shellExecErr 9)
    dirFiles := []
    fs := fun _ => none }

/-- Handler environment for the C4 witness: office module unavailable. -/
def envC4W : HandlerEnv :=
  { pipeline :=
      { office := { libreLoaded := false, convertAsync := fun _ => .error (.officeErr 0) }
        raster := { pdf2picLoaded := false, bulk := fun _ => .error (.renderErr 0),
                    shellExec := .error (.shellExecErr 0), dirFiles := [], fs := fun _ => none } }
    keepOriginalFiles := false }

/-- Filesystem for the C4 witness: only the uploaded `.docx` exists. -/
def fsC4W : FS := fun p => if p = "uploads/1-a.docx" then some [1, 2] else none

/-- Office environment for the C6 counterexample: the converter resolves with
an empty buffer (it produced no output). -/
def officeC6cex : OfficeEnv := { libreLoaded := true, convertAsync := fun _ => .ok [] }

/-- Filesystem for the C6 counterexample: only the source document exists. -/
def fsC6cex : FS := fun p => if p = "u/a.docx" then some [1, 2] else none

/-- Office environment for the C6 witness: the converter rejects. -/
def officeC6W : OfficeEnv := { libreLoaded := true, convertAsync := fun _ => .error (.officeErr 3) }

/-- Filesystem for the C6 witness. -/
def fsC6W : FS := fun p => if p = "u/b.docx" then some [5] else none

/-- Pipeline environment for the C5 witness: renderer returns one page. -/
def envC5W : PipelineEnv :=
  { office := { libreLoaded := true, convertAsync := fun _ => .error (.officeErr 0) }
    raster := { pdf2picLoaded := true, bulk := fun _ => .ok ["img/r.1.png"],
                shellExec := .ok (), dirFiles := [], fs := fun _ => none } }

/-- Filesystem for the C5 witness: the uploaded PDF. -/
def fsC5W : FS := fun p => if p = "u/r.pdf" then some [9, 8, 7] else none

/-- Pipeline environment for the C1 witness: both renderer configurations and
the shell fallback fail. -/
def envC1W : PipelineEnv :=
  { office := { libreLoaded := false, convertAsync := fun _ => .error (.officeErr 0) }
    raster := { pdf2picLoaded := true, bulk := fun _ => .error (.renderErr 0),
                shellExec := .error (.shellExecErr 1), dirFiles := [], fs := fun _ => none } }

/-- Filesystem for the C1 witness: the uploaded PDF. -/
def fsC1W : FS := fun p => if p = "u/f.pdf" then some [1, 2, 3] else none

/-- Pipeline environment for the C7 witness: the renderer returns two pages
that both exist on disk. -/
def envC7W : PipelineEnv :=
  { office := { libreLoaded := true, convertAsync := fun _ => .error (.officeErr 0) }
    raster := { pdf2picLoaded := true
                bulk := fun i => if i = 0 then .ok ["img/p.1.png", "img/p.2.png"]
                                 else .error (.renderErr 1)
                shellExec := .error (.shellExecErr 0)
                dirFiles := []
                fs := fun p => if p = "img/p.1.png" ∨ p = "img/p.2.png" then some [0] else none } }

/-- Filesystem for the C7 witness. -/
def fsC7W : FS := fun p => if p = "u/p.pdf" then some [1, 2, 3] else none

/-- The result of the C7 witness run. -/
def rC7 : ConversionResult1 :=
  { pdfSize := 3, imageCount := 2,
    imageEntries := [⟨"p.1.png", 1⟩, ⟨"p.2.png", 2⟩] }

/-- Environment for the C2 witness: configuration 1 yields one output that
exists on disk. -/
def rasterC2W : RasterEnv :=
  { pdf2picLoaded := true
    bulk := fun i => if i = 0 then .ok ["w/x.png"] else .error (.renderErr 1)
    shellExec := .ok ()
    dirFiles := []
    fs := fun p => if p = "w/x.png" then some [1] else none }

/-- Environment for the C2 counterexample: configuration 1 claims an output
file that does not exist, and the shell command then produces a valid image. -/
def rasterC2cex : RasterEnv :=
  { pdf2picLoaded := true
    bulk := fun i => if i = 0 then .ok ["ghost.png"] else .error (.renderErr 1)
    shellExec := .ok ()
    dirFiles := ["a-1.png"]
    fs := fun p => if p = "w/a-1.png" then some (List.replicate 101 7) else none }

/-- Environment for the C3 witness: one output file of size 101 found by the
shell fallback after the configurations fail. -/
def rasterC3W : RasterEnv :=
  { pdf2picLoaded := true
    bulk := fun _ => .error (.renderErr 0)
    shellExec := .ok ()
    dirFiles := ["b-1.png"]
    fs := fun p => if p = "d/b-1.png" then some (List.replicate 101 3) else none }

/-- Environment for the C3 counterexample: configuration 1 produces a file
that exists but holds a single byte. -/
def rasterC3cex : RasterEnv :=
  { pdf2picLoaded := true
    bulk := fun i => if i = 0 then .ok ["tiny.png"] else .error (.renderErr 1)
    shellExec := .error (.shellExecErr 1)
    dirFiles := []
    fs := fun p => if p = "tiny.png" then some [7] else none }

/-- Environment for the C8 witness: the output directory holds one file with
the expected prefix and one without. -/
def rasterC8W : RasterEnv :=
  { pdf2picLoaded := true
    bulk := fun _ => .error (.renderErr 0)
    shellExec := .ok ()
    dirFiles := ["a-1.png", "zz.jpg"]
    fs := fun p => if p = "d/a-1.png" then some (List.replicate 101 5) else none }

/-- Handler environment for the C10 witness: the converter rejects, triggering
the catch path. -/
def envC10W : HandlerEnv :=
  { pipeline :=
      { office := { libreLoaded := true, convertAsync := fun _ => .error (.officeErr 2) }
        raster := { pdf2picLoaded := false, bulk := fun _ => .error (.renderErr 0),
                    shellExec := .error (.shellExecErr 0), dirFiles := [], fs := fun _ => none } }
    keepOriginalFiles := false }

/-- Filesystem for the C10 witness: the uploaded DOCX exists. -/
def fsC10W : FS := fun p => if p = "u/a.docx" then some [1] else none

/-- Handler environment for the C10 counterexample: office module missing. -/
def envC10cex : HandlerEnv :=
  { pipeline :=
      { office := { libreLoaded := false, convertAsync := fun _ => .error (.officeErr 0) }
        raster := { pdf2picLoaded := false, bulk := fun _ => .error (.renderErr 0),
                    shellExec := .error (.shellExecErr 0), dirFiles := [], fs := fun _ => none } }
    keepOriginalFiles := false }

/-- Filesystem for the C10 counterexample: the uploaded DOCX exists. -/
def fsC10cex : FS := fun p => if p = "u/c.docx" then some [4] else none

/-- After a successful normalize step, the destination PDF exists. -/
lemma normalizeStep_ok_exists {env : OfficeEnv} {fs fs1 : FS} {srcPath ext pdfPath : String}
    (h : normalizeStep env fs srcPath ext pdfPath = (.ok (), fs1)) :
    ∃ c, fs1 pdfPath = some c := by
  unfold normalizeStep at h
  split at h
  · split at h
    · cases h
      simp [fsWrite]
    · cases h
  · split at h
    · cases h
    · unfold convertToPDF at h
      split at h
      · cases h
      · split at h
        · cases h
        · split at h
          · cases h
          · cases h
            simp [fsWrite]

/-- Everything that survives the `stats.size > 100` filter exists and is
larger than 100 bytes. -/
lemma filterValid_mem {fs : FS} {paths : List String} {p : String}
    (h : p ∈ filterValidBySize fs paths) :
    ∃ c, fs p = some c ∧ 100 < c.length := by
  unfold filterValidBySize at h
  have hp := (List.mem_filter.mp h).2
  cases hc : fs p with
  | some c =>
    rw [hc] at hp
    exact ⟨c, rfl, of_decide_eq_true hp⟩
  | none => rw [hc] at hp; cases hp

/-- Every file the system-command fallback returns exists and is larger than
100 bytes. -/
lemma shellCommand_ok_all {env : RasterEnv} {pdfPath outputDir : String} {files : List String}
    (h : convertPDFUsingSystemCommand env pdfPath outputDir = .ok files) :
    ∀ p ∈ files, ∃ c, env.fs p = some c ∧ 100 < c.length := by
  unfold convertPDFUsingSystemCommand at h
  split at h
  · cases h
  · simp only [] at h
    split at h
    · cases h
    · cases h
      intro p hp
      exact filterValid_mem hp

/-- Every file the try-block of `convertPDFToImages` returns exists on disk. -/
lemma imagesTry_ok_all {env : RasterEnv} {files : List String}
    (h : convertPDFToImagesTry env = .ok files) :
    ∀ p ∈ files, fsExists env.fs p = true := by
  unfold convertPDFToImagesTry at h
  split at h
  · cases h
  · simp only [] at h
    split at h
    · cases h
    · split at h
      · cases h
      · split at h
        · cases h
        · cases h
          intro p hp
          exact (List.mem_filter.mp hp).2

/-- Length is preserved by `numberFiles`. -/
lemma numberFiles_length (l : List String) (s : Nat) :
    (numberFiles l s).length = l.length := by
  induction l generalizing s with
  | nil => rfl
  | cons f rest ih => simp [numberFiles, ih]

/-- The page fields produced by `numberFiles l s` are `s, s+1, …`. -/
lemma numberFiles_map_page (l : List String) (s : Nat) :
    (numberFiles l s).map ImageEntry.page = List.range' s l.length := by
  induction l generalizing s with
  | nil => rfl
  | cons f rest ih => simp [numberFiles, List.range', ih]

/-- When configuration 0 returns a non-empty list, the loop stops at once with
that list, no stored error, and only configuration 0 attempted. -/
lemma runConfigs_first_success {env : RasterEnv} {rs : List String}
    (h0 : env.bulk 0 = .ok rs) (hne : 0 < rs.length) :
    runConfigs env 2 = ⟨some rs, none, [0]⟩ := by
  have : runConfigs env 2 = runConfigsFrom env (1 + 1) 0 ⟨none, none, []⟩ := rfl
  rw [this, runConfigsFrom, h0]
  simp [hne]

/-- The trace of attempted configurations does not depend on how the call
ends. -/
lemma convertPDFToImages_attempted (env : RasterEnv) (p d : String) :
    (convertPDFToImages env p d).attempted =
      if env.pdf2picLoaded then (runConfigs env 2).attempted else [] := by
  simp only [convertPDFToImages]
  split
  · rfl
  · split <;> rfl

/-- C1: when the normalize step succeeded, a Rasterizer failure is swallowed:
`processFileConversion` still succeeds with an empty image list and the PDF
artifact produced by the normalize step. -/
theorem claim_C1 (env : PipelineEnv) (fs fs1 : FS) (srcPath ext pdfPath imgDir : String)
    (c : Bytes) (e : Err)
    (hnorm : normalizeStep env.office fs srcPath ext pdfPath = (.ok (), fs1))
    (hpdf : fs1 pdfPath = some c)
    (hfail : (convertPDFToImages env.raster pdfPath imgDir).result = .error e) :
    processFileConversion1 env fs srcPath ext pdfPath imgDir =
      (.ok { pdfSize := c.length, imageCount := 0, imageEntries := [] }, fs1) := by
  have hc := hpdf
  simp only [processFileConversion1]
  rw [hnorm]
  have himg : (if env.raster.pdf2picLoaded then
      match (convertPDFToImages env.raster pdfPath imgDir).result with
      | .ok files => files
      | .error _ => []
    else []) = ([] : List String) := by
    by_cases hp : env.raster.pdf2picLoaded
    · rw [if_pos hp, hfail]
    · rw [if_neg hp]
  simp only []
  rw [himg]
  simp [fsSize, hc, numberFiles]

/-- C1 witness: with every rendering strategy failing, the pipeline still
succeeds with zero images and the copied PDF. -/
theorem claim_C1_witness :
    processFileConversion1 envC1W fsC1W "u/f.pdf" ".pdf" "pdfs/f.pdf" "img" =
      (.ok { pdfSize := ([1, 2, 3] : Bytes).length, imageCount := 0, imageEntries := [] },
       fsWrite fsC1W "pdfs/f.pdf" [1, 2, 3]) :=
  claim_C1 envC1W fsC1W (fsWrite fsC1W "pdfs/f.pdf" [1, 2, 3]) "u/f.pdf" ".pdf" "pdfs/f.pdf"
    "img" [1, 2, 3] (.renderErr 0) rfl rfl rfl

set_option maxRecDepth 1000000 in
/-- C2 counterexample: configuration 1 returns one output (`ghost.png`), yet
the shell fallback IS invoked, because the claimed file does not exist and the
post-loop validation throws. -/
theorem claim_C2_counterexample :
    rasterC2cex.bulk 0 = .ok ["ghost.png"] ∧
    0 < (["ghost.png"] : List String).length ∧
    (convertPDFToImages rasterC2cex "a.pdf" "w").fallbackInvoked = true :=
  ⟨rfl, by decide, rfl⟩

/-- C2 (amended): when configuration 1 returns at least one output file,
configuration 2 is never attempted; if at least one of the returned files also
exists on disk, the system-command fallback is never invoked and the existing
files are returned. -/
theorem claim_C2 (env : RasterEnv) (pdfPath outDir : String) (rs : List String)
    (hload : env.pdf2picLoaded = true)
    (h0 : env.bulk 0 = .ok rs) (hne : 0 < rs.length) :
    (convertPDFToImages env pdfPath outDir).attempted = [0] ∧
    (rs.filter (fun p => fsExists env.fs p) ≠ [] →
      (convertPDFToImages env pdfPath outDir).fallbackInvoked = false ∧
      (convertPDFToImages env pdfPath outDir).result =
        .ok (rs.filter (fun p => fsExists env.fs p))) := by
  have hrun := runConfigs_first_success h0 hne
  constructor
  · simp [convertPDFToImages_attempted, hload, hrun]
  · intro hflt
    have hlen : (rs.filter (fun p => fsExists env.fs p)).length ≠ 0 := by
      simpa [List.length_eq_zero] using hflt
    have htry : convertPDFToImagesTry env =
        .ok (rs.filter (fun p => fsExists env.fs p)) := by
      simp only [convertPDFToImagesTry, hload, hrun]
      simp [Nat.pos_iff_ne_zero.mp hne, hlen]
    constructor
    · simp only [convertPDFToImages, htry]
    · simp only [convertPDFToImages, htry]

set_option maxRecDepth 100000 in
/-- C2 witness: a first-configuration success attempts only configuration 0
and never falls back. -/
theorem claim_C2_witness :
    (convertPDFToImages rasterC2W "x.pdf" "w").attempted = [0] ∧
    (convertPDFToImages rasterC2W "x.pdf" "w").fallbackInvoked = false ∧
    (convertPDFToImages rasterC2W "x.pdf" "w").result = .ok ["w/x.png"] := by
  have h := claim_C2 rasterC2W "x.pdf" "w" ["w/x.png"] rfl rfl (by decide)
  have h2 := h.2 (by decide)
  exact ⟨h.1, h2.1, h2.2⟩

set_option maxRecDepth 100000 in
/-- C3 counterexample: the configuration-based path returns a 1-byte file —
existence is checked there, size is not, refuting the ≤ 100-byte exclusion. -/
theorem claim_C3_counterexample :
    (convertPDFToImages rasterC3cex "a.pdf" "d").result = .ok ["tiny.png"] ∧
    fsSize rasterC3cex.fs "tiny.png" = some 1 ∧ ¬ (100 < 1) :=
  ⟨rfl, rfl, by decide⟩

/-- C3 (amended): every file `convertPDFToImages` returns exists on disk; when
the result came from the system-command fallback, every file moreover has size
strictly above 100 bytes. -/
theorem claim_C3 (env : RasterEnv) (pdfPath outDir : String) (files : List String)
    (h : (convertPDFToImages env pdfPath outDir).result = .ok files) :
    (∀ p ∈ files, fsExists env.fs p = true) ∧
    ((convertPDFToImages env pdfPath outDir).fallbackInvoked = true →
      ∀ p ∈ files, ∃ c, env.fs p = some c ∧ 100 < c.length) := by
  cases htry : convertPDFToImagesTry env with
  | ok fs0 =>
    have ho : convertPDFToImages env pdfPath outDir =
        ⟨.ok fs0, if env.pdf2picLoaded then (runConfigs env 2).attempted else [], false⟩ := by
      simp only [convertPDFToImages, htry]
    rw [ho] at h
    cases h
    refine ⟨imagesTry_ok_all htry, ?_⟩
    rw [ho]
    intro hfb
    cases hfb
  | error e =>
    cases hfb : convertPDFUsingSystemCommand env pdfPath outDir with
    | ok fs0 =>
      have ho : convertPDFToImages env pdfPath outDir =
          ⟨.ok fs0, if env.pdf2picLoaded then (runConfigs env 2).attempted else [], true⟩ := by
        simp only [convertPDFToImages, htry, hfb]
      rw [ho] at h
      cases h
      have hall := shellCommand_ok_all hfb
      refine ⟨?_, fun _ => hall⟩
      intro p hp
      obtain ⟨c, hc, _⟩ := hall p hp
      simp [fsExists, hc]
    | error fe =>
      have ho : convertPDFToImages env pdfPath outDir =
          ⟨.error e, if env.pdf2picLoaded then (runConfigs env 2).attempted else [], true⟩ := by
        simp only [convertPDFToImages, htry, hfb]
      rw [ho] at h
      cases h

set_option maxRecDepth 1000000 in
/-- C3 witness: the fallback-produced file exists and exceeds 100 bytes. -/
theorem claim_C3_witness :
    fsExists rasterC3W.fs "d/b-1.png" = true ∧
    ∃ c, rasterC3W.fs "d/b-1.png" = some c ∧ 100 < c.length := by
  have h := claim_C3 rasterC3W "b.pdf" "d" ["d/b-1.png"] rfl
  exact ⟨h.1 "d/b-1.png" (by simp), h.2 rfl "d/b-1.png" (by simp)⟩

/-- C4: for a non-`.pdf` upload with the office converter unavailable, the
route answers 400 (no crash) and leaves the filesystem unchanged, so no
destination PDF is created. -/
theorem claim_C4 (env : HandlerEnv) (fs : FS) (f : UploadedFile) (pdfPath imgDir : String)
    (hext : toLowerStr (extname f.originalname) ≠ ".pdf")
    (hlibre : env.pipeline.office.libreLoaded = false) :
    uploadHandler env fs (some f) pdfPath imgDir =
      ({ status := .bad400, success := false }, fs) := by
  simp only [uploadHandler]
  rw [if_pos ⟨hext, hlibre⟩]

/-- C4 witness: uploading `a.docx` with the converter unavailable gives a 400
response and the unchanged filesystem. -/
theorem claim_C4_witness :
    uploadHandler envC4W fsC4W (some ⟨"a.docx", "uploads/1-a.docx"⟩) "pdfs/1-a.pdf" "img" =
      ({ status := .bad400, success := false }, fsC4W) :=
  claim_C4 envC4W fsC4W ⟨"a.docx", "uploads/1-a.docx"⟩ "pdfs/1-a.pdf" "img" (by decide) rfl

/-- C5: a `.pdf` input is copied to the destination unchanged: the pipeline
result (third variant, the one carrying the flag) has `isConverted = false`
and the destination file's bytes equal the source file's bytes. -/
theorem claim_C5 (env : PipelineEnv) (fs : FS) (srcPath pdfPath imgDir : String)
    (c : Bytes) (files : List String)
    (hsrc : fs srcPath = some c)
    (hraster : convertPDFToImages3 env.raster = .ok files) :
    processFileConversion3 env fs srcPath ".pdf" pdfPath imgDir =
      (.ok { pdfPath := pdfPath, pdfSize := c.length, isConverted := false,
             imageCount := files.length, imageEntries := numberFiles files 1 },
       fsWrite fs pdfPath c) ∧
    (fsWrite fs pdfPath c) pdfPath = some c := by
  refine ⟨?_, by simp [fsWrite]⟩
  simp only [processFileConversion3]
  rw [if_pos trivial, hsrc]
  simp only []
  rw [hraster]
  simp [fsSize, fsWrite]

/-- C5 witness: copying `u/r.pdf` yields `isConverted = false` and identical
bytes at the destination. -/
theorem claim_C5_witness :
    processFileConversion3 envC5W fsC5W "u/r.pdf" ".pdf" "d/r.pdf" "img" =
      (.ok { pdfPath := "d/r.pdf", pdfSize := ([9, 8, 7] : Bytes).length,
             isConverted := false, imageCount := (["img/r.1.png"] : List String).length,
             imageEntries := numberFiles ["img/r.1.png"] 1 },
       fsWrite fsC5W "d/r.pdf" [9, 8, 7]) ∧
    (fsWrite fsC5W "d/r.pdf" [9, 8, 7]) "d/r.pdf" = some [9, 8, 7] :=
  claim_C5 envC5W fsC5W "u/r.pdf" "d/r.pdf" "img" [9, 8, 7] ["img/r.1.png"] rfl rfl

/-- C6 counterexample: when `convertAsync` resolves with an empty buffer (the
conversion produced no output), `convertToPDF` does not fail — it writes an
empty destination file and succeeds, so the destination exists afterwards. -/
theorem claim_C6_counterexample :
    fsC6cex "out.pdf" = none ∧
    officeC6cex.convertAsync [1, 2] = .ok [] ∧
    convertToPDF officeC6cex fsC6cex "u/a.docx" "out.pdf" =
      (.ok (), fsWrite fsC6cex "out.pdf" []) ∧
    (fsWrite fsC6cex "out.pdf" []) "out.pdf" = some [] :=
  ⟨rfl, rfl, rfl, rfl⟩

/-- C6 (amended): when the office-conversion call throws, `convertToPDF`
re-throws the error and leaves the filesystem unchanged, so a destination that
did not exist before is not created. -/
theorem claim_C6 (env : OfficeEnv) (fs : FS) (inputPath outputPath : String) (c : Bytes) (e : Err)
    (hl : env.libreLoaded = true)
    (hin : fs inputPath = some c)
    (hconv : env.convertAsync c = .error e) :
    convertToPDF env fs inputPath outputPath = (.error e, fs) ∧
    (fs outputPath = none → (convertToPDF env fs inputPath outputPath).2 outputPath = none) := by
  have hrun : convertToPDF env fs inputPath outputPath = (.error e, fs) := by
    simp only [convertToPDF]
    rw [hl, hin]
    simp only [if_neg (by decide : ¬ (true = false))]
    rw [hconv]
  exact ⟨hrun, fun hout => by rw [hrun]; exact hout⟩

/-- C6 witness: a throwing conversion re-throws and creates no `out.pdf`. -/
theorem claim_C6_witness :
    convertToPDF officeC6W fsC6W "u/b.docx" "out.pdf" = (.error (.officeErr 3), fsC6W) ∧
    (convertToPDF officeC6W fsC6W "u/b.docx" "out.pdf").2 "out.pdf" = none := by
  have h := claim_C6 officeC6W fsC6W "u/b.docx" "out.pdf" [5] (.officeErr 3) rfl rfl rfl
  exact ⟨h.1, h.2 rfl⟩

/-- C7: any successful pipeline result numbers its image entries contiguously
`1, 2, …` in order, with as many pages as images. -/
theorem claim_C7 (env : PipelineEnv) (fs : FS) (srcPath ext pdfPath imgDir : String)
    (r : ConversionResult1)
    (h : (processFileConversion1 env fs srcPath ext pdfPath imgDir).1 = .ok r) :
    r.imageEntries.map ImageEntry.page = List.range' 1 r.imageCount ∧
    r.imageEntries.length = r.imageCount := by
  simp only [processFileConversion1] at h
  split at h
  · cases h
  · split at h
    · cases h
    · cases h
      refine ⟨?_, ?_⟩ <;> simp [numberFiles_map_page, numberFiles_length]

set_option maxRecDepth 100000 in
/-- C7 witness: a two-page run is numbered `[1, 2]`. -/
theorem claim_C7_witness :
    rC7.imageEntries.map ImageEntry.page = List.range' 1 rC7.imageCount ∧
    rC7.imageEntries.length = rC7.imageCount :=
  claim_C7 envC7W fsC7W "u/p.pdf" ".pdf" "d/p.pdf" "img" rC7 (by rfl)

/-- C8: after a successful shell command the prefix-based selection is used
whenever it is non-empty, and exactly when it is empty the any-image-file
selection is used instead. -/
theorem claim_C8 (env : RasterEnv) (pdfPath outputDir : String)
    (hok : env.shellExec = .ok ()) :
    (prefixImageFiles env.dirFiles (stripPdfExt (basename pdfPath)) outputDir ≠ [] →
      convertPDFUsingSystemCommand env pdfPath outputDir =
        (let v := filterValidBySize env.fs
            (prefixImageFiles env.dirFiles (stripPdfExt (basename pdfPath)) outputDir)
         if v.length = 0 then .error .shellNoValidImages else .ok v)) ∧
    (prefixImageFiles env.dirFiles (stripPdfExt (basename pdfPath)) outputDir = [] →
      convertPDFUsingSystemCommand env pdfPath outputDir =
        (let v := filterValidBySize env.fs (anyImageFiles env.dirFiles outputDir)
         if v.length = 0 then .error .shellNoValidImages else .ok v)) := by
  constructor
  · intro hne
    have hsel : selectShellImages env.dirFiles (stripPdfExt (basename pdfPath)) outputDir =
        prefixImageFiles env.dirFiles (stripPdfExt (basename pdfPath)) outputDir := by
      simp only [selectShellImages]
      rw [if_neg (by simpa [List.length_eq_zero] using hne)]
    simp only [convertPDFUsingSystemCommand, hok, hsel]
  · intro he
    have hsel : selectShellImages env.dirFiles (stripPdfExt (basename pdfPath)) outputDir =
        anyImageFiles env.dirFiles outputDir := by
      simp only [selectShellImages]
      rw [if_pos (by simp [he])]
    simp only [convertPDFUsingSystemCommand, hok, hsel]

set_option maxRecDepth 1000000 in
/-- C8 witness: with a prefix match present, only the prefix-selected file is
returned. -/
theorem claim_C8_witness :
    convertPDFUsingSystemCommand rasterC8W "a.pdf" "d" = .ok ["d/a-1.png"] := by
  have h := (claim_C8 rasterC8W "a.pdf" "d" rfl).1 (by decide)
  exact h

/-- C9: when the whole configuration-based path throws and the system-command
fallback also throws, `convertPDFToImages` re-throws the configuration-path
error, not the fallback error. -/
theorem claim_C9 (env : RasterEnv) (pdfPath outputDir : String) (e fe : Err)
    (htry : convertPDFToImagesTry env = .error e)
    (hfb : convertPDFUsingSystemCommand env pdfPath outputDir = .error fe) :
    (convertPDFToImages env pdfPath outputDir).result = .error e := by
  simp only [convertPDFToImages]
  rw [htry, hfb]

/-- C9 witness: a run where every configuration throws `renderErr` and the
shell command throws `shellExecErr 9`; the result is the configuration error. -/
theorem claim_C9_witness :
    (convertPDFToImages rasterC9W "a.pdf" "d").result = .error (.renderErr 1) :=
  claim_C9 rasterC9W "a.pdf" "d" (.renderErr 1) (.shellExecErr 9) rfl rfl

set_option maxRecDepth 100000 in
/-- C10 counterexample: a `.docx` upload with the converter unavailable is
answered (400) while the uploaded file is still on disk — the handler responds
without deleting it. -/
theorem claim_C10_counterexample :
    uploadHandler envC10cex fsC10cex (some ⟨"c.docx", "u/c.docx"⟩) "p.pdf" "d" =
      ({ status := .bad400, success := false }, fsC10cex) ∧
    fsC10cex "u/c.docx" = some [4] :=
  ⟨rfl, rfl⟩


/-- C10 (amended): on the handler's catch path the uploaded file is gone when
the 500 response is sent, and on the success path it is gone whenever
`KEEP_ORIGINAL_FILES` is not `'true'`. -/
theorem claim_C10 (env : HandlerEnv) (fs : FS) (f : UploadedFile) (pdfPath imgDir : String)
    (resp : UploadResponse) (fs1 : FS)
    (h : uploadHandler env fs (some f) pdfPath imgDir = (resp, fs1)) :
    (resp.status = .err500 → fs1 f.path = none) ∧
    (resp.status = .ok200 → env.keepOriginalFiles = false → fs1 f.path = none) := by
  simp only [uploadHandler] at h
  by_cases hcond : toLowerStr (extname f.originalname) ≠ ".pdf" ∧
      env.pipeline.office.libreLoaded = false
  · rw [if_pos hcond] at h
    cases h
    exact ⟨fun hs => (nomatch hs), fun hs => (nomatch hs)⟩
  · rw [if_neg hcond] at h
    rcases hp : processFileConversion1 env.pipeline fs f.path
        (toLowerStr (extname f.originalname)) pdfPath imgDir with ⟨res, fs2⟩
    rw [hp] at h
    cases res with
    | ok r =>
      cases h
      refine ⟨fun hs => (nomatch hs), fun _ hkeep => ?_⟩
      simp [hkeep, fsRemove]
    | error e =>
      cases h
      refine ⟨fun _ => ?_, fun hs => (nomatch hs)⟩
      by_cases hex : fsExists fs2 f.path = true
      · simp [hex, fsRemove]
      · rw [if_neg hex]
        cases hval : fs2 f.path with
        | none => rfl
        | some c => exact absurd (by simp [fsExists, hval]) hex

set_option maxRecDepth 100000 in
/-- C10 witness: after the 500 response the uploaded file is deleted. -/
theorem claim_C10_witness :
    (fsRemove fsC10W "u/a.docx") "u/a.docx" = none :=
  (claim_C10 envC10W fsC10W ⟨"a.docx", "u/a.docx"⟩ "p.pdf" "d"
      ⟨.err500, false⟩ (fsRemove fsC10W "u/a.docx") rfl).1 rfl

end LiffUploader
